import Mathlib

/-!
# Verification of the centerpiece-auth core against its specification

A shallow embedding of the authentication service's data-access layer
(`src/db.ts`), crypto helpers (`src/crypto/passwords.ts`,
`src/crypto/refreshTokens.ts`), redirect validator
(`src/security/redirectValidator.ts`) and the handlers
(`src/handlers/token.ts`, `src/handlers/jwks.ts` refresh part,
`src/handlers/logout.ts`, `src/handlers/resetPassword.ts`,
`src/oauth/callback.ts`).

Conventions of the embedding:
* D1 tables are Lean lists of row structures; SQL `UPDATE`/`DELETE` become
  `List.map`/`List.filter`, `.first()` becomes `List.find?`.
* `datetime('now')` / `Date.now()` timestamps are a `Nat` argument `now`
  threaded through each operation.
* SHA-256, PKCE S256 and PBKDF2 are abstract function parameters: the
  handlers only compare their outputs for equality.
* Rows whose primary key is a random UUID are appended without a conflict
  check (callers always pass a fresh `crypto.randomUUID()`); the UNIQUE
  constraint on `users.email`, which a handler can actually hit, is modelled
  and surfaces as `Except.error` the way a D1 insert throws.
-/

set_option autoImplicit false

namespace CenterpieceAuth

/-! ### String primitives

The JavaScript string operations the source leans on (`toLowerCase`,
`split`, `trim`, `endsWith`, `startsWith`) are re-implemented here over the
underlying character list so concrete runs reduce inside the kernel.  Every
`split` in the source uses a single-character separator. -/

/-- `s.toLowerCase()`. -/
def strToLower (s : String) : String := ⟨s.data.map Char.toLower⟩

/-- Accumulator loop of `strSplitOnChar`. -/
def splitOnCharAux : List Char → Char → List Char → List (List Char)
  | [], _, acc => [acc.reverse]
  | x :: xs, c, acc =>
    if x = c then acc.reverse :: splitOnCharAux xs c []
    else splitOnCharAux xs c (x :: acc)

/-- `s.split(sep)` for a one-character separator. -/
def strSplitOnChar (sep : Char) (s : String) : List String :=
  (splitOnCharAux s.data sep []).map (fun l => ⟨l⟩)

/-- The whitespace characters `trim` strips in the inputs at hand. -/
def isJsWhitespace (c : Char) : Bool :=
  c = ' ' ∨ c = '\t' ∨ c = '\n' ∨ c = '\r'

/-- `s.trim()`. -/
def strTrim (s : String) : String :=
  ⟨((s.data.dropWhile isJsWhitespace).reverse.dropWhile isJsWhitespace).reverse⟩

/-- `s.endsWith(pat)`. -/
def strEndsWith (s pat : String) : Bool :=
  List.isSuffixOf pat.data s.data

/-- Membership roles, `tenant_memberships.role` (migration 0002). -/
inductive Role where
  | customer
  | seller
  | supplier
  | platform_admin
deriving DecidableEq, Repr

/-- Membership status column. -/
inductive MemberStatus where
  | active
  | suspended
  | invited
deriving DecidableEq, Repr

/-- Access-token audiences. -/
inductive Aud where
  | storefront
  | admin
deriving DecidableEq, Repr

/-- Row of the `users` table. `email_verified` is the SQLite 0/1 boolean. -/
structure UserRow where
  id : String
  email : String
  email_verified : Bool
  password_hash : Option String
  name : String
  avatar_url : Option String
  created_at : Nat
  updated_at : Nat
deriving DecidableEq, Repr

/-- Row of the `tenant_memberships` table. -/
structure TenantMembershipRow where
  id : String
  user_id : String
  tenant_id : String
  role : Role
  status : MemberStatus
  created_at : Nat
deriving DecidableEq, Repr

/-- Row of the `oauth_accounts` table. -/
structure OAuthAccountRow where
  id : String
  user_id : String
  provider : String
  provider_account_id : String
  created_at : Nat
deriving DecidableEq, Repr

/-- Row of the `auth_codes` table (with the PKCE columns of migration 0002). -/
structure AuthCodeRow where
  code_hash : String
  user_id : String
  tenant_id : String
  redirect_origin : String
  aud : Aud
  expires_at : Nat
  created_at : Nat
  code_challenge : Option String
  code_challenge_method : Option String
deriving DecidableEq, Repr

/-- Row of the `refresh_tokens` table. -/
structure RefreshTokenRow where
  id : String
  user_id : String
  token_hash : String
  family_id : String
  expires_at : Nat
  revoked_at : Option Nat
  last_used_at : Option Nat
  ip : Option String
  user_agent : Option String
  created_at : Nat
deriving DecidableEq, Repr

/-- Row of the `password_reset_tokens` table. -/
structure ResetTokenRow where
  token_hash : String
  user_id : String
  expires_at : Nat
  used_at : Option Nat
  created_at : Nat
deriving DecidableEq, Repr

/-- The D1 database state: the tables the claims touch. -/
structure AuthDB where
  users : List UserRow
  memberships : List TenantMembershipRow
  oauthAccounts : List OAuthAccountRow
  authCodes : List AuthCodeRow
  refreshTokens : List RefreshTokenRow
  resetTokens : List ResetTokenRow
deriving DecidableEq

namespace AuthDB

/-- `SELECT * FROM users WHERE email = ?` bound to `email.toLowerCase()`. -/
def getUserByEmail (db : AuthDB) (email : String) : Option UserRow :=
  db.users.find? (fun u => u.email == strToLower email)

/-- `SELECT * FROM users WHERE id = ?`. -/
def getUserById (db : AuthDB) (id : String) : Option UserRow :=
  db.users.find? (fun u => u.id == id)

/-- Argument record of `insertUser` (optional fields defaulted as in db.ts). -/
structure NewUser where
  id : String
  email : String
  password_hash : Option String := none
  name : String := ""
  avatar_url : Option String := none
  email_verified : Bool := false

/-- `INSERT INTO users ...`; the email is lowercased by the adapter.
`users.email` is `UNIQUE` and `id` is the primary key, so a conflicting
insert throws (modelled as `Except.error`, the text D1/SQLite produces). -/
def insertUser (db : AuthDB) (now : Nat) (u : NewUser) : Except String AuthDB :=
  if db.users.any (fun x => x.email == strToLower u.email) then
    .error "UNIQUE constraint failed: users.email"
  else if db.users.any (fun x => x.id == u.id) then
    .error "UNIQUE constraint failed: users.id"
  else
    .ok { db with users := db.users ++
      [⟨u.id, strToLower u.email, u.email_verified, u.password_hash, u.name,
        u.avatar_url, now, now⟩] }

/-- `UPDATE users SET password_hash = ? WHERE id = ?` (the schema trigger
`trg_users_updated_at` also refreshes `updated_at`). -/
def updateUserPassword (db : AuthDB) (userId passwordHash : String) (now : Nat) : AuthDB :=
  { db with users := db.users.map (fun u =>
      if u.id == userId then { u with password_hash := some passwordHash, updated_at := now } else u) }

/-- `UPDATE users SET name = ? WHERE id = ?`. -/
def updateUserName (db : AuthDB) (userId name : String) (now : Nat) : AuthDB :=
  { db with users := db.users.map (fun u =>
      if u.id == userId then { u with name := name, updated_at := now } else u) }

/-- `UPDATE users SET avatar_url = ? WHERE id = ?`. -/
def updateUserAvatar (db : AuthDB) (userId avatarUrl : String) (now : Nat) : AuthDB :=
  { db with users := db.users.map (fun u =>
      if u.id == userId then { u with avatar_url := some avatarUrl, updated_at := now } else u) }

/-- `UPDATE users SET email_verified = 1 WHERE id = ?`. -/
def markEmailVerified (db : AuthDB) (userId : String) (now : Nat) : AuthDB :=
  { db with users := db.users.map (fun u =>
      if u.id == userId then { u with email_verified := true, updated_at := now } else u) }

/-- `SELECT * FROM oauth_accounts WHERE provider = ? AND provider_account_id = ?`. -/
def getOAuthAccount (db : AuthDB) (provider providerAccountId : String) : Option OAuthAccountRow :=
  db.oauthAccounts.find? (fun a =>
    a.provider == provider && a.provider_account_id == providerAccountId)

/-- Argument record of `upsertOAuthAccount`. -/
structure NewOAuthAccount where
  id : String
  user_id : String
  provider : String
  provider_account_id : String

/-- `INSERT INTO oauth_accounts ... ON CONFLICT(provider, provider_account_id)
DO UPDATE SET user_id = excluded.user_id`. -/
def upsertOAuthAccount (db : AuthDB) (now : Nat) (a : NewOAuthAccount) : AuthDB :=
  if db.oauthAccounts.any (fun x =>
      x.provider == a.provider && x.provider_account_id == a.provider_account_id) then
    { db with oauthAccounts := db.oauthAccounts.map (fun x =>
        if x.provider == a.provider && x.provider_account_id == a.provider_account_id then
          { x with user_id := a.user_id }
        else x) }
  else
    { db with oauthAccounts := db.oauthAccounts ++
        [⟨a.id, a.user_id, a.provider, a.provider_account_id, now⟩] }

/-- The relation `ORDER BY created_at ASC` sorts by. -/
def leCreated (a b : TenantMembershipRow) : Prop :=
  a.created_at ≤ b.created_at

instance : DecidableRel leCreated := fun a b => Nat.decLe a.created_at b.created_at

instance : IsTotal TenantMembershipRow leCreated := ⟨fun x y => Nat.le_total x.created_at y.created_at⟩

instance : IsTrans TenantMembershipRow leCreated := ⟨fun _ _ _ => Nat.le_trans⟩

/-- The `WHERE` clause of `getAdminMemberships`: the user's active
non-customer membership rows. -/
def activeNonCustomer (db : AuthDB) (userId : String) : List TenantMembershipRow :=
  db.memberships.filter (fun m =>
    m.user_id == userId && !(m.role == Role.customer) && m.status == MemberStatus.active)

/-- `SELECT tenant_id, role FROM tenant_memberships WHERE user_id = ? AND
role != 'customer' AND status = 'active' ORDER BY created_at ASC`
(the rows are kept whole; the handler reads `tenant_id` and `role`). -/
def getAdminMemberships (db : AuthDB) (userId : String) : List TenantMembershipRow :=
  List.insertionSort leCreated (db.activeNonCustomer userId)

/-- `INSERT INTO auth_codes ...` (primary key `code_hash` is the SHA-256 of a
fresh 256-bit random code, so no conflict check is modelled). -/
def insertAuthCode (db : AuthDB) (row : AuthCodeRow) : AuthDB :=
  { db with authCodes := db.authCodes ++ [row] }

/-- `consumeAuthCode`: `SELECT` by `code_hash`, and when found, `DELETE` the
row immediately (single-use), returning the row that was read. -/
def consumeAuthCode (db : AuthDB) (codeHash : String) : AuthDB × Option AuthCodeRow :=
  match db.authCodes.find? (fun r => r.code_hash == codeHash) with
  | none => (db, none)
  | some row =>
    ({ db with authCodes := db.authCodes.filter (fun r => !(r.code_hash == codeHash)) }, some row)

/-- Argument record of `insertRefreshToken` / `rotateRefreshToken`. -/
structure NewRefreshToken where
  id : String
  user_id : String
  token_hash : String
  family_id : String
  expires_at : Nat
  ip : Option String := none
  user_agent : Option String := none

/-- The `refresh_tokens` row an insert produces (`revoked_at`/`last_used_at`
NULL, `created_at` defaulted to `datetime('now')`). -/
def NewRefreshToken.toRow (t : NewRefreshToken) (now : Nat) : RefreshTokenRow :=
  ⟨t.id, t.user_id, t.token_hash, t.family_id, t.expires_at, none, none, t.ip, t.user_agent, now⟩

/-- `INSERT INTO refresh_tokens ...`. -/
def insertRefreshToken (db : AuthDB) (now : Nat) (t : NewRefreshToken) : AuthDB :=
  { db with refreshTokens := db.refreshTokens ++ [t.toRow now] }

/-- `SELECT * FROM refresh_tokens WHERE token_hash = ?` (`.first()`). -/
def getRefreshTokenByHash (db : AuthDB) (tokenHash : String) : Option RefreshTokenRow :=
  db.refreshTokens.find? (fun r => r.token_hash == tokenHash)

/-- `UPDATE refresh_tokens SET revoked_at = datetime('now')
WHERE family_id = ? AND revoked_at IS NULL`. -/
def revokeRefreshTokenFamily (db : AuthDB) (familyId : String) (now : Nat) : AuthDB :=
  { db with refreshTokens := db.refreshTokens.map (fun r =>
      if r.family_id == familyId && r.revoked_at == none then
        { r with revoked_at := some now }
      else r) }

/-- `UPDATE refresh_tokens SET revoked_at = datetime('now')
WHERE user_id = ? AND revoked_at IS NULL`. -/
def revokeAllRefreshTokensForUser (db : AuthDB) (userId : String) (now : Nat) : AuthDB :=
  { db with refreshTokens := db.refreshTokens.map (fun r =>
      if r.user_id == userId && r.revoked_at == none then
        { r with revoked_at := some now }
      else r) }

/-- `UPDATE refresh_tokens SET revoked_at = datetime('now')
WHERE token_hash = ? AND revoked_at IS NULL` (single logout). -/
def revokeRefreshToken (db : AuthDB) (tokenHash : String) (now : Nat) : AuthDB :=
  { db with refreshTokens := db.refreshTokens.map (fun r =>
      if r.token_hash == tokenHash && r.revoked_at == none then
        { r with revoked_at := some now }
      else r) }

/-- Result record of `rotateRefreshToken`. -/
structure RotateResult where
  success : Bool
  reuseDetected : Bool
deriving DecidableEq, Repr

/-- `rotateRefreshToken`: look the old token up by hash; missing → failure;
already revoked → revoke the whole family, report reuse; otherwise revoke
the old row (`revoked_at`/`last_used_at` = now, `WHERE token_hash = ?` with
no `IS NULL` guard) and insert the new token. -/
def rotateRefreshToken (db : AuthDB) (now : Nat) (oldTokenHash : String)
    (newToken : NewRefreshToken) : AuthDB × RotateResult :=
  match db.getRefreshTokenByHash oldTokenHash with
  | none => (db, ⟨false, false⟩)
  | some existing =>
    if existing.revoked_at ≠ none then
      (db.revokeRefreshTokenFamily existing.family_id now, ⟨false, true⟩)
    else
      let db1 : AuthDB := { db with refreshTokens := db.refreshTokens.map (fun r =>
        if r.token_hash == oldTokenHash then
          { r with revoked_at := some now, last_used_at := some now }
        else r) }
      (db1.insertRefreshToken now newToken, ⟨true, false⟩)

/-- `INSERT INTO password_reset_tokens ...`. -/
def insertPasswordResetToken (db : AuthDB) (now : Nat) (tokenHash userId : String)
    (expiresAt : Nat) : AuthDB :=
  { db with resetTokens := db.resetTokens ++ [⟨tokenHash, userId, expiresAt, none, now⟩] }

/-- `consumePasswordResetToken`: `SELECT user_id, expires_at ... WHERE
token_hash = ? AND used_at IS NULL`, then mark `used_at` on the row. -/
def consumePasswordResetToken (db : AuthDB) (tokenHash : String) (now : Nat) :
    AuthDB × Option (String × Nat) :=
  match db.resetTokens.find? (fun r => r.token_hash == tokenHash && r.used_at == none) with
  | none => (db, none)
  | some row =>
    ({ db with resetTokens := db.resetTokens.map (fun r =>
        if r.token_hash == tokenHash then { r with used_at := some now } else r) },
     some (row.user_id, row.expires_at))

end AuthDB

/-! ## Crypto helpers (`src/crypto/passwords.ts`, `src/crypto/refreshTokens.ts`) -/

/-- Value of a hex digit, `none` for any other character. -/
def hexDigitVal (c : Char) : Option Nat :=
  if '0' ≤ c ∧ c ≤ '9' then some (c.toNat - '0'.toNat)
  else if 'a' ≤ c ∧ c ≤ 'f' then some (c.toNat - 'a'.toNat + 10)
  else if 'A' ≤ c ∧ c ≤ 'F' then some (c.toNat - 'A'.toNat + 10)
  else none

/-- `parseInt(s, 16)` on a two-character slice, with the `Uint8Array` store
coercing `NaN` to 0: no leading hex digit → 0; one digit → its value. -/
def hexPairVal (c1 c2 : Char) : Nat :=
  match hexDigitVal c1 with
  | none => 0
  | some a =>
    match hexDigitVal c2 with
    | none => a
    | some b => 16 * a + b

/-- `hexToBuffer`: allocates `Uint8Array(hex.length / 2)` (the fractional
length of an odd-length string is truncated by `ToIndex`) and fills it with
`parseInt(hex.substring(i, i+2), 16)`; a write past the end (odd length)
and the `NaN` of a non-hex pair both store nothing/0. -/
def hexToBuffer (hex : String) : List Nat :=
  (List.range (hex.length / 2)).map (fun i =>
    hexPairVal (hex.toList.getD (2 * i) ' ') (hex.toList.getD (2 * i + 1) ' '))

/-- `parseInt(s, 10)`: leading decimal digits, `none` for `NaN`.
(Whitespace/sign handling is irrelevant for the colon-separated fields.) -/
def jsParseInt (s : String) : Option Nat :=
  let ds := s.toList.takeWhile Char.isDigit
  if ds.isEmpty then none
  else some (ds.foldl (fun a c => 10 * a + (c.toNat - '0'.toNat)) 0)

/-- `constantTimeEqual`: length check then fold-XOR comparison. -/
def constantTimeEqual (a b : List Nat) : Bool :=
  if a.length ≠ b.length then false
  else ((a.zip b).foldl (fun acc p => acc ||| (p.1 ^^^ p.2)) 0) == 0

/-- `verifyPassword(password, storedHash)`.  `derive` abstracts
`crypto.subtle.deriveBits` with PBKDF2-SHA-256: arguments password, salt,
iterations, bit length.  Per the Web Crypto specification, PBKDF2
`deriveBits` throws an `OperationError` when the requested length is zero,
which the embedding surfaces as `Except.error`; every other path returns a
boolean. -/
def verifyPassword (derive : String → List Nat → Nat → Nat → List Nat)
    (password storedHash : String) : Except String Bool :=
  match strSplitOnChar ':' storedHash with
  | [tag, iterStr, saltHex, hashHex] =>
    if tag ≠ "pbkdf2" then .ok false
    else
      let iterations? := jsParseInt iterStr
      let salt := hexToBuffer saltHex
      let expectedHash := hexToBuffer hashHex
      if iterations?.isNone ∨ iterations?.getD 0 < 1 then .ok false
      else if expectedHash.length = 0 then
        .error "OperationError: deriveBits length is zero"
      else
        .ok (constantTimeEqual
          (derive password salt (iterations?.getD 0) (expectedHash.length * 8)) expectedHash)
  | _ => .ok false

/-- `buildRefreshCookieHeader(token, maxAgeDays, authDomain)`; `hostname` is
`new URL(authDomain).hostname`, extracted upstream of this embedding. -/
def buildRefreshCookieHeader (token : String) (maxAgeDays : Nat) (hostname : String) : String :=
  let maxAgeSeconds := maxAgeDays * 24 * 60 * 60
  let isLocalhost := hostname = "localhost" ∨ hostname = "127.0.0.1"
  let securePart := if isLocalhost then "" else "; Secure"
  let domainPart := if isLocalhost then "" else "; Domain=" ++ hostname
  "cp_refresh=" ++ token ++ "; HttpOnly" ++ securePart ++
    "; SameSite=Lax; Path=/; Max-Age=" ++ toString maxAgeSeconds ++ domainPart

/-- `buildClearRefreshCookieHeader(authDomain)`: same cookie with empty value
and `Max-Age=0`. -/
def buildClearRefreshCookieHeader (hostname : String) : String :=
  let isLocalhost := hostname = "localhost" ∨ hostname = "127.0.0.1"
  let securePart := if isLocalhost then "" else "; Secure"
  let domainPart := if isLocalhost then "" else "; Domain=" ++ hostname
  "cp_refresh=; HttpOnly" ++ securePart ++ "; SameSite=Lax; Path=/; Max-Age=0" ++ domainPart

/-- Loop body of `extractRefreshToken`: the first cookie named `cp_refresh`
decides the result (the source `return`s inside the loop, so a later
duplicate is never consulted); an empty value yields `null`. -/
def extractRefreshLoop : List String → Option String
  | [] => none
  | c :: rest =>
    let parts := strSplitOnChar '=' c
    let name := strTrim (parts.headD "")
    if name = "cp_refresh" then
      let value := strTrim (String.intercalate "=" (parts.drop 1))
      if value = "" then none else some value
    else extractRefreshLoop rest

/-- `extractRefreshToken(cookieHeader)`: split the Cookie header on `;`,
trim, and scan for `cp_refresh`. An absent or empty header is `null`. -/
def extractRefreshToken (cookieHeader : Option String) : Option String :=
  match cookieHeader with
  | none => none
  | some s =>
    if s = "" then none
    else extractRefreshLoop ((strSplitOnChar ';' s).map strTrim)

/-! ## Redirect validator (`src/security/redirectValidator.ts`) -/

/-- Suffixes the validator always accepts. -/
def CONTROLLED_SUFFIXES : List String :=
  [".centerpiece.shop", ".centerpiece.app", ".centerpiece.io",
   ".centerpiecelab.com", ".workers.dev", ".pages.dev"]

/-- Dev-only hosts for which `http:` is tolerated outside production. -/
def DEV_HOSTS : List String := ["localhost", "127.0.0.1"]

/-- The relevant fields of a WHATWG `URL` after a successful parse
(`protocol` keeps its trailing colon; `hash` is empty when there is no
fragment; `origin` is the serialized scheme+host+port). -/
structure URLParts where
  protocol : String
  hostname : String
  hash : String
  origin : String
deriving DecidableEq, Repr

/-- `isIpLiteral(hostname)`: bracketed IPv6, or four dot-separated groups
each matching `/^\d\x7b1,3\x7d$/`. -/
def isIpLiteral (hostname : String) : Bool :=
  if hostname.data.headD ' ' = '[' then true
  else
    let parts := strSplitOnChar '.' hostname
    parts.length == 4 &&
      parts.all (fun p => 1 ≤ p.length && p.length ≤ 3 && p.data.all Char.isDigit)

/-- The record `validateRedirectUrl` returns. -/
structure RedirectValidationResult where
  valid : Bool
  origin : String
  tenantId : String
  error : Option String
deriving DecidableEq, Repr

/-- The rejection record the validator's local `invalid` helper builds. -/
def invalidRedirect (e : String) : RedirectValidationResult :=
  ⟨false, "", "", some e⟩

/-- `validateRedirectUrl(redirectUrl, tenantConfigs, environment)` after URL
parsing (a parse failure rejects upstream of this embedding).  `kv` models
the `TENANT_CONFIGS` lookup `domain:<host> → config.id` (`none` covers a
missing key, a config without `id`, and a lookup error alike); the
JavaScript `tenantId || '__unknown__'` and `if (tenantId)` treat an empty
id as absent.  The source's locals `isDev`, `isControlledDomain` and
`isDevLocalhost` are inlined. -/
def validateRedirectUrl (url : URLParts) (kv : String → Option String)
    (environment : String) : RedirectValidationResult :=
  if url.protocol = "javascript:" then invalidRedirect "Rejected javascript: URI"
  else if url.protocol ≠ "https:" ∧
      ¬(url.protocol = "http:" ∧ environment ≠ "production" ∧ url.hostname ∈ DEV_HOSTS) then
    invalidRedirect "Redirect URL must use https:"
  else if isIpLiteral url.hostname ∧
      ¬(environment ≠ "production" ∧ url.hostname ∈ DEV_HOSTS) then
    invalidRedirect "IP literal hostnames are not allowed"
  else if url.hash ≠ "" then
    invalidRedirect "Redirect URL must not contain fragments"
  else if CONTROLLED_SUFFIXES.any (fun sfx => strEndsWith url.hostname sfx) ∨
      (environment ≠ "production" ∧ url.hostname ∈ DEV_HOSTS) then
    let tid := (kv ("domain:" ++ url.hostname)).getD ""
    ⟨true, url.origin, if tid = "" then "__unknown__" else tid, none⟩
  else
    match kv ("domain:" ++ url.hostname) with
    | some i =>
      if i = "" then invalidRedirect ("Unknown redirect domain: " ++ url.hostname)
      else ⟨true, url.origin, i, none⟩
    | none => invalidRedirect ("Unknown redirect domain: " ++ url.hostname)

/-! ## Audience resolution (`resolveAudience` in token/refresh handlers) -/

/-- Hostnames routed to the admin SPA. -/
def ADMIN_DOMAINS : List String :=
  ["admin.centerpiecelab.com", "centerpiece-admin-staging.pages.dev"]

/-- `resolveAudience(redirectUrl, audienceParam)`; `redirectHostname` is the
hostname of `new URL(redirectUrl)`, `none` when that parse throws. -/
def resolveAudience (redirectHostname : Option String) (audienceParam : String) : Aud :=
  if audienceParam = "admin" then .admin
  else
    match redirectHostname with
    | some h => if h ∈ ADMIN_DOMAINS then .admin else .storefront
    | none => .storefront

/-! ## Token exchange handler (`src/handlers/token.ts`) -/

/-- Parsed JSON body of `POST /api/token` (fields already trimmed; an empty
`code_verifier` string survives as `some ""` only via whitespace input). -/
structure TokenRequest where
  code : String
  tenant_id : String
  redirect_origin : String
  code_verifier : Option String
deriving DecidableEq, Repr

/-- The JWT payload `handleTokenExchange` assembles before signing
(`iat`/`exp` are added inside `signJwt` and carry no claim content). The
three admin-only claims are `Option`s so that *absent* is distinguishable
from *null* (`primaryTenantId`'s inner `Option`). -/
structure JwtPayloadM where
  sub : String
  email : String
  name : String
  aud : Aud
  iss : String
  jti : Option String
  roles : Option (List Role)
  primaryTenantId : Option (Option String)
deriving DecidableEq, Repr

/-- Outcome of `POST /api/token`: a `jsonError(status, msg)` response or a
signed token whose payload is given. -/
inductive TokenResult where
  | err (status : Nat) (msg : String)
  | ok (payload : JwtPayloadM) (expiresIn : Nat)
deriving DecidableEq, Repr

/-- The payload block of `handleTokenExchange` (token.ts lines 243-265):
the base claims, plus — for `aud === 'admin'` only — `jti`, `roles` scoped
to the primary tenant, and `primaryTenantId` from the first row of
`getAdminMemberships`. -/
def buildAccessPayload (db1 : AuthDB) (user : UserRow) (aud : Aud)
    (jti aD : String) : JwtPayloadM :=
  let base : JwtPayloadM :=
    { sub := user.id, email := user.email, name := user.name,
      aud := aud, iss := aD, jti := none, roles := none, primaryTenantId := none }
  if aud = Aud.admin then
    let ms := db1.getAdminMemberships user.id
    match ms.head? with
    | none =>
      { base with
        jti := some jti,
        roles := some ([]),
        primaryTenantId := some none }
    | some m0 =>
      { base with
        jti := some jti,
        roles := some ((ms.filter (fun m => m.tenant_id == m0.tenant_id)).map (·.role)),
        primaryTenantId := some (some m0.tenant_id) }
  else base

/-- `handleTokenExchange` (PKCE-aware version): consume the code row by the
SHA-256 of the presented code, then validate expiry, tenant, origin, PKCE,
and sign.  `sha` abstracts `sha256Hex`, `s256` abstracts
`sha256Base64Url`, `jti` the `crypto.randomUUID()` drawn for admin tokens. -/
def handleTokenExchange (sha s256 : String → String) (authDomain : String)
    (ttlSeconds : Nat) (jti : String) (req : TokenRequest) (db : AuthDB)
    (now : Nat) : AuthDB × TokenResult :=
  if req.code = "" ∨ req.tenant_id = "" ∨ req.redirect_origin = "" then
    (db, .err 400 "Missing required fields: code, tenant_id, redirect_origin")
  else
    let db1 := (db.consumeAuthCode (sha req.code)).1
    match (db.consumeAuthCode (sha req.code)).2 with
    | none => (db1, .err 400 "Invalid or expired authorization code")
    | some row =>
      if row.expires_at ≤ now then
        (db1, .err 400 "Authorization code has expired")
      else if row.tenant_id ≠ req.tenant_id then
        (db1, .err 400 "Authorization code tenant mismatch")
      else if row.redirect_origin ≠ req.redirect_origin then
        (db1, .err 400 "Authorization code origin mismatch")
      else
        -- `if (authCodeRow.code_challenge)`: null and the empty string both skip PKCE
        let challenge := row.code_challenge.getD ""
        if challenge ≠ "" ∧ (req.code_verifier.getD "") = "" then
          (db1, .err 400 "PKCE code_verifier is required for this authorization code")
        else if challenge ≠ "" ∧ s256 (req.code_verifier.getD "") ≠ challenge then
          (db1, .err 400 "PKCE code_verifier does not match code_challenge")
        else
          match db1.getUserById row.user_id with
          | none => (db1, .err 400 "User not found")
          | some user =>
            (db1, .ok (buildAccessPayload db1 user row.aud jti authDomain) ttlSeconds)

/-! ## Refresh handler (`handleRefresh` in `src/handlers/jwks.ts` bundle) -/

/-- Response of `GET /api/refresh`: always a 302; either a redirect back to
the login page (`error` query parameter, optionally clearing the refresh
cookie) or a redirect to the tenant callback carrying a fresh auth code and
a rotated refresh cookie. -/
structure RefreshResponse where
  status : Nat
  loginError : Option String
  clearCookie : Bool
  newCookieToken : Option String
  callbackCode : Option String
deriving DecidableEq, Repr

/-- `redirectToLogin(env, tenant, redirect, error, clearCookie = false)`. -/
def redirectToLogin (error : String) (clearCookie : Bool := false) : RefreshResponse :=
  ⟨302, some error, clearCookie, none, none⟩

/-- Per-request inputs of `handleRefresh`: the query parameters, the result
of `validateRedirectUrl` on the `redirect` parameter, the Cookie header and
the random material the handler draws (`generateRefreshToken`,
`generateUUID`, `generateAuthCode`). -/
structure RefreshInput where
  tenantParam : String
  redirectUrl : String
  validation : RedirectValidationResult
  audienceParam : String
  redirectHostname : Option String
  cookieHeader : Option String
  ip : Option String
  ua : Option String
  newRefreshId : String
  newRefreshPlain : String
  newAuthCodePlain : String
  refreshTtlDays : Nat
  codeTtlSeconds : Nat

/-- `handleRefresh`: validate the redirect, read the cookie, look the token
up by hash, run reuse/expiry checks, rotate, then mint an auth code and
redirect back.  `sha` abstracts `sha256Hex` (used both for the refresh
token and the auth code). -/
def handleRefresh (sha : String → String) (inp : RefreshInput) (db : AuthDB)
    (now : Nat) : AuthDB × RefreshResponse :=
  if inp.redirectUrl = "" then
    (db, redirectToLogin "invalid_redirect")
  else if inp.validation.valid = false then
    (db, redirectToLogin "invalid_redirect")
  else
    match extractRefreshToken inp.cookieHeader with
    | none => (db, redirectToLogin "session_expired")
    | some tok =>
      let tokenHash := sha tok
      match db.getRefreshTokenByHash tokenHash with
      | none => (db, redirectToLogin "session_expired" true)
      | some existing =>
        if existing.revoked_at ≠ none then
          (db.revokeRefreshTokenFamily existing.family_id now,
           redirectToLogin "session_expired" true)
        else if existing.expires_at ≤ now then
          (db, redirectToLogin "session_expired" true)
        else
          let rotr := db.rotateRefreshToken now tokenHash
            { id := inp.newRefreshId, user_id := existing.user_id,
              token_hash := sha inp.newRefreshPlain,
              family_id := existing.family_id,
              expires_at := now + inp.refreshTtlDays * 24 * 60 * 60,
              ip := inp.ip, user_agent := inp.ua }
          let db1 := rotr.1
          if rotr.2.success = false then
            (db1, redirectToLogin "session_expired" true)
          else
            let aud := resolveAudience inp.redirectHostname inp.audienceParam
            let db2 := db1.insertAuthCode
              { code_hash := sha inp.newAuthCodePlain,
                user_id := existing.user_id,
                tenant_id := inp.validation.tenantId,
                redirect_origin := inp.validation.origin,
                aud := aud, expires_at := now + inp.codeTtlSeconds,
                created_at := now, code_challenge := none,
                code_challenge_method := none }
            (db2, ⟨302, none, false, some inp.newRefreshPlain, some inp.newAuthCodePlain⟩)

/-! ## Logout handlers (`src/handlers/logout.ts` bundle) -/

/-- Response of the logout endpoints. -/
structure LogoutResponse where
  status : Nat
  body : String
  setCookie : String
deriving DecidableEq, Repr

/-- `handleLogout`: revoke the single token named by the cookie (when one is
present) and always answer 200 with the cleared cookie.  `authHost` is
`new URL(env.AUTH_DOMAIN).hostname`. -/
def handleLogout (sha : String → String) (authHost : String)
    (cookieHeader : Option String) (db : AuthDB) (now : Nat) : AuthDB × LogoutResponse :=
  let db1 :=
    match extractRefreshToken cookieHeader with
    | some tok => db.revokeRefreshToken (sha tok) now
    | none => db
  (db1, ⟨200, "\x7b\"success\":true\x7d", buildClearRefreshCookieHeader authHost⟩)

/-- `handleLogoutAll`: resolve the cookie's token to its user, revoke every
token of that user, and always answer 200 with the cleared cookie. -/
def handleLogoutAll (sha : String → String) (authHost : String)
    (cookieHeader : Option String) (db : AuthDB) (now : Nat) : AuthDB × LogoutResponse :=
  let db1 :=
    match extractRefreshToken cookieHeader with
    | some tok =>
      match db.getRefreshTokenByHash (sha tok) with
      | some existing => db.revokeAllRefreshTokensForUser existing.user_id now
      | none => db
    | none => db
  (db1, ⟨200, "\x7b\"success\":true\x7d", buildClearRefreshCookieHeader authHost⟩)

/-! ## Reset-password handler (`src/handlers/resetPassword.ts` bundle) -/

/-- Outcome of `POST /api/reset-password`: a 302 back to `/reset-password`
with an error code, or the 302 to `/login?message=password_changed`. -/
inductive ResetResult where
  | errorRedirect (error : String)
  | success
deriving DecidableEq, Repr

/-- `handleResetPassword` after body parsing: input checks, consume the reset
token row, expiry check, update the password hash, revoke every refresh
token of the user.  `sha` abstracts `sha256Hex`, `hashPw` abstracts
`hashPassword` (its salt is random, so only the produced string matters). -/
def handleResetPassword (sha hashPw : String → String)
    (token newPassword confirmPassword : String) (db : AuthDB) (now : Nat) :
    AuthDB × ResetResult :=
  if token = "" then (db, .errorRedirect "invalid_token")
  else if newPassword.length < 8 then (db, .errorRedirect "password_weak")
  else if newPassword ≠ confirmPassword then (db, .errorRedirect "password_mismatch")
  else
    match db.consumePasswordResetToken (sha token) now with
    | (db1, none) => (db1, .errorRedirect "invalid_token")
    | (db1, some (userId, expiresAt)) =>
      if expiresAt ≤ now then (db1, .errorRedirect "token_expired")
      else
        let db2 := db1.updateUserPassword userId (hashPw newPassword) now
        let db3 := db2.revokeAllRefreshTokensForUser userId now
        (db3, .success)

/-! ## OAuth user resolution (`resolveUser` in `src/oauth/callback.ts`) -/

/-- The normalized profile every provider adapter produces. -/
structure OAuthUserProfile where
  provider : String
  providerAccountId : String
  email : String
  emailVerified : Bool
  name : String
  avatarUrl : Option String
deriving DecidableEq, Repr

/-- JavaScript truthiness of a `string | null | undefined` value. -/
def truthyStr (s : Option String) : Bool :=
  match s with
  | some v => v ≠ ""
  | none => false

/-- Final branch of `resolveUser`: create the user (no password) and link
the provider account.  The `INSERT INTO users` hits the `UNIQUE` constraint
on `users.email` whenever a user with the same lowercased email already
exists, and the resulting throw propagates out of `resolveUser`. -/
def resolveUserCreate (db : AuthDB) (profile : OAuthUserProfile) (now : Nat)
    (newUserId newLinkId : String) : Except String (AuthDB × String) := do
  let db1 ← db.insertUser now
    { id := newUserId, email := profile.email,
      email_verified := profile.emailVerified, name := profile.name,
      avatar_url := profile.avatarUrl, password_hash := none }
  .ok (db1.upsertOAuthAccount now
    ⟨newLinkId, newUserId, profile.provider, profile.providerAccountId⟩, newUserId)

/-- `resolveUser(db, profile)`: (1) an existing `(provider, account)` link
wins, with name/avatar backfill; (2) an existing user with the same email
is linked only when the provider verified the email; (3) otherwise a new
user is created and linked.  `newUserId`/`newLinkId` stand for the
`generateUUID()` draws. -/
def resolveUser (db : AuthDB) (profile : OAuthUserProfile) (now : Nat)
    (newUserId newLinkId : String) : Except String (AuthDB × String) :=
  match db.getOAuthAccount profile.provider profile.providerAccountId with
  | some acct =>
    let db1 :=
      match db.getUserById acct.user_id with
      | some user =>
        let dbA := if profile.name ≠ "" ∧ user.name = "" then
            db.updateUserName user.id profile.name now else db
        let dbB := if truthyStr profile.avatarUrl ∧ ¬ truthyStr user.avatar_url then
            dbA.updateUserAvatar user.id (profile.avatarUrl.getD "") now else dbA
        dbB
      | none => db
    .ok (db1, acct.user_id)
  | none =>
    match (if profile.email ≠ "" then db.getUserByEmail profile.email else none) with
    | some existingUser =>
      if profile.emailVerified then
        let db1 := db.upsertOAuthAccount now
          ⟨newLinkId, existingUser.id, profile.provider, profile.providerAccountId⟩
        let db2 := if profile.name ≠ "" ∧ existingUser.name = "" then
            db1.updateUserName existingUser.id profile.name now else db1
        let db3 := if truthyStr profile.avatarUrl ∧ ¬ truthyStr existingUser.avatar_url then
            db2.updateUserAvatar existingUser.id (profile.avatarUrl.getD "") now else db2
        let db4 := if existingUser.email_verified = false then
            db3.markEmailVerified existingUser.id now else db3
        .ok (db4, existingUser.id)
      else
        -- provider did not verify the email: fall through to user creation
        resolveUserCreate db profile now newUserId newLinkId
    | none => resolveUserCreate db profile now newUserId newLinkId

/-! ## Helper lemmas -/

theorem find?_map_pres {α : Type} (f : α → α) (p : α → Bool) (hp : ∀ a, p (f a) = p a)
    (l : List α) : (l.map f).find? p = (l.find? p).map f := by
  induction l with
  | nil => rfl
  | cons a t ih =>
    simp only [List.map_cons, List.find?_cons, hp a]
    cases hpa : p a <;> simp [ih]

theorem map_eq_self_of {α : Type} (l : List α) (f : α → α) (h : ∀ x ∈ l, f x = x) :
    l.map f = l := by
  induction l with
  | nil => rfl
  | cons a t ih =>
    simp only [List.map_cons, h a (by simp), ih (fun x hx => h x (by simp [hx]))]

theorem insertionSort_head_min (l : List TenantMembershipRow) (m0 : TenantMembershipRow)
    (rest : List TenantMembershipRow)
    (h : List.insertionSort AuthDB.leCreated l = m0 :: rest) :
    m0 ∈ l ∧ ∀ m' ∈ l, m0.created_at ≤ m'.created_at := by
  have hperm := List.perm_insertionSort AuthDB.leCreated l
  rw [h] at hperm
  refine ⟨hperm.mem_iff.mp (List.mem_cons_self _ _), ?_⟩
  intro m' hm'
  have hm'' : m' ∈ m0 :: rest := hperm.mem_iff.mpr hm'
  rcases List.mem_cons.mp hm'' with rfl | hmr
  · exact le_refl _
  · have hs := List.sorted_insertionSort AuthDB.leCreated l
    rw [h] at hs
    exact (List.sorted_cons.mp hs).1 m' hmr

/-! ## C7 — redirect validator versus IPv4-literal hosts -/

/-- C7 (amended): a redirect URL whose host is an IPv4 literal is rejected in
production; it is accepted only when the environment is not production, the
host is `127.0.0.1` (`localhost` is not an IPv4 literal), and the scheme is
`http` **or `https`** — the claim's restriction to `http` does not hold. -/
theorem c7_ipv4_literal_amended (u : URLParts) (kv : String → Option String)
    (env : String) (hip : isIpLiteral u.hostname = true)
    (hvalid : (validateRedirectUrl u kv env).valid = true) :
    env ≠ "production" ∧ u.hostname = "127.0.0.1" ∧
      (u.protocol = "http:" ∨ u.protocol = "https:") := by
  unfold validateRedirectUrl at hvalid
  by_cases hjs : u.protocol = "javascript:"
  · rw [if_pos hjs] at hvalid
    exact absurd hvalid (by simp [invalidRedirect])
  · rw [if_neg hjs] at hvalid
    by_cases h2 : u.protocol ≠ "https:" ∧
        ¬(u.protocol = "http:" ∧ env ≠ "production" ∧ u.hostname ∈ DEV_HOSTS)
    · rw [if_pos h2] at hvalid
      exact absurd hvalid (by simp [invalidRedirect])
    · rw [if_neg h2] at hvalid
      by_cases h3 : isIpLiteral u.hostname ∧ ¬(env ≠ "production" ∧ u.hostname ∈ DEV_HOSTS)
      · rw [if_pos h3] at hvalid
        exact absurd hvalid (by simp [invalidRedirect])
      · push_neg at h3
        obtain ⟨hprod, hmem⟩ := h3 hip
        have hmem' : u.hostname = "localhost" ∨ u.hostname = "127.0.0.1" := by
          simpa [DEV_HOSTS] using hmem
        have hhost : u.hostname = "127.0.0.1" := by
          rcases hmem' with h | h
          · rw [h] at hip
            exact absurd hip (by decide)
          · exact h
        refine ⟨hprod, hhost, ?_⟩
        push_neg at h2
        by_cases hhttps : u.protocol = "https:"
        · exact Or.inr hhttps
        · exact Or.inl (h2 hhttps).1

/-- Witness for C7's amended theorem at `http://127.0.0.1` in development. -/
theorem c7_ipv4_literal_amended_witness :
    "development" ≠ "production" ∧
      (⟨"http:", "127.0.0.1", "", "http://127.0.0.1"⟩ : URLParts).hostname = "127.0.0.1" ∧
      ((⟨"http:", "127.0.0.1", "", "http://127.0.0.1"⟩ : URLParts).protocol = "http:" ∨
        (⟨"http:", "127.0.0.1", "", "http://127.0.0.1"⟩ : URLParts).protocol = "https:") :=
  c7_ipv4_literal_amended ⟨"http:", "127.0.0.1", "", "http://127.0.0.1"⟩
    (fun _ => none) "development" (by decide) (by decide)

/-- Counterexample to C7 as stated: in the staging environment the validator
accepts `https://127.0.0.1` — an IPv4-literal host with a scheme other than
`http` (the claim allows IPv4 hosts only with scheme `http`, and says
staging rejects them). -/
theorem c7_ipv4_literal_counterexample :
    isIpLiteral "127.0.0.1" = true ∧
      (validateRedirectUrl ⟨"https:", "127.0.0.1", "", "https://127.0.0.1"⟩
        (fun _ => none) "staging").valid = true ∧
      ("https:" = "http:" → False) := by
  refine ⟨by decide, by decide, by decide⟩

/-! ## C8 — `verifyPassword` robustness on malformed records -/

/-- C8 (code bug): `verifyPassword` is documented (and specified) to return
`false` on every malformed stored record and never throw, but a record whose
hash field is empty (or a single character) makes `expectedHash.length` zero
and `crypto.subtle.deriveBits` then throws an `OperationError` per the Web
Crypto specification — for **every** PBKDF2 implementation `derive`, since
the throw happens before the derived bits are compared. -/
theorem c8_verifyPassword_throws_on_empty_hash_field
    (derive : String → List Nat → Nat → Nat → List Nat) :
    verifyPassword derive "any password" "pbkdf2:100000:00:" =
      .error "OperationError: deriveBits length is zero" := by
  rfl

/-! ## C1 — OAuth callback with an unverified email matching an existing user -/

/-- C1 (code bug): with an existing user row for `bob@x.test` and no prior
federated link, an OAuth profile reporting the same email (case-insensitively)
with `emailVerified = false` makes `resolveUser` fall through to the
create-new-user branch, whose `INSERT INTO users` violates the schema's
`UNIQUE` constraint on `users.email`; the insert throws instead of creating
the separate user the claim (and the code's own comments) describe, and
`handleOAuthCallback` turns the throw into an `oauth_failed` redirect. -/
theorem c1_unverified_email_insert_throws :
    resolveUser
      ⟨[⟨"u1", "bob@x.test", true, some "pbkdf2-hash", "Bob", none, 0, 0⟩],
        [], [], [], [], []⟩
      ⟨"facebook", "fb-1", "Bob@X.test", false, "Bobby", none⟩
      10 "u2" "link-2" =
      .error "UNIQUE constraint failed: users.email" := by
  rfl

/-! ## C10 — logout endpoints never fail -/

theorem getRefreshTokenByHash_none (db : AuthDB) (h : String)
    (hfresh : ∀ r ∈ db.refreshTokens, r.token_hash ≠ h) :
    db.getRefreshTokenByHash h = none :=
  List.find?_eq_none.mpr (fun r hr => by simpa using hfresh r hr)

theorem revokeRefreshToken_no_match (db : AuthDB) (h : String) (now : Nat)
    (hfresh : ∀ r ∈ db.refreshTokens, r.token_hash ≠ h) :
    db.revokeRefreshToken h now = db := by
  unfold AuthDB.revokeRefreshToken
  rw [map_eq_self_of _ _ (fun r hr => by simp [hfresh r hr])]

/-- C10: `POST /api/logout` and `POST /api/logout-all` always answer
HTTP 200 with body `{"success":true}` and the `cp_refresh`-clearing
`Set-Cookie` header, and when the request has no `cp_refresh` cookie, or a
cookie whose hash matches no stored row, no refresh-token row is modified. -/
theorem c10_logout_endpoints (sha : String → String) (authHost : String)
    (ch : Option String) (db : AuthDB) (now : Nat) :
    ((handleLogout sha authHost ch db now).2 =
      ⟨200, "\x7b\"success\":true\x7d", buildClearRefreshCookieHeader authHost⟩) ∧
    ((handleLogoutAll sha authHost ch db now).2 =
      ⟨200, "\x7b\"success\":true\x7d", buildClearRefreshCookieHeader authHost⟩) ∧
    (extractRefreshToken ch = none →
      (handleLogout sha authHost ch db now).1 = db ∧
      (handleLogoutAll sha authHost ch db now).1 = db) ∧
    (∀ tok, extractRefreshToken ch = some tok →
      (∀ r ∈ db.refreshTokens, r.token_hash ≠ sha tok) →
      (handleLogout sha authHost ch db now).1 = db ∧
      (handleLogoutAll sha authHost ch db now).1 = db) := by
  refine ⟨?_, ?_, ?_, ?_⟩
  · cases hE : extractRefreshToken ch <;> simp [handleLogout, hE]
  · cases hE : extractRefreshToken ch with
    | none => simp [handleLogoutAll, hE]
    | some tok =>
      cases hF : db.getRefreshTokenByHash (sha tok) <;> simp [handleLogoutAll, hE, hF]
  · intro hE
    exact ⟨by simp [handleLogout, hE], by simp [handleLogoutAll, hE]⟩
  · intro tok hE hfresh
    constructor
    · simp only [handleLogout, hE]
      exact revokeRefreshToken_no_match db (sha tok) now hfresh
    · simp [handleLogoutAll, hE, getRefreshTokenByHash_none db (sha tok) hfresh]

/-- Witness for C10 at a request with no cookie at all against an empty
store. -/
theorem c10_logout_endpoints_witness :
    (handleLogout (fun s => s) "auth.centerpiecelab.com" none
        ⟨[], [], [], [], [], []⟩ 7).1 = ⟨[], [], [], [], [], []⟩ ∧
    (handleLogoutAll (fun s => s) "auth.centerpiecelab.com" none
        ⟨[], [], [], [], [], []⟩ 7).1 = ⟨[], [], [], [], [], []⟩ :=
  (c10_logout_endpoints (fun s => s) "auth.centerpiecelab.com" none
      ⟨[], [], [], [], [], []⟩ 7).2.2.1 rfl

/-! ## C9 — successful password reset leaves no live refresh token -/

/-- C9: whenever `POST /api/reset-password` completes successfully (the 302
with `message=password_changed`, modelled as `ResetResult.success`), every
`refresh_tokens` row of the affected user — the user of the consumed reset
row — has a non-null `revoked_at` in the resulting store. -/
theorem c9_reset_revokes_all_sessions (sha hashPw : String → String)
    (token newPw confirmPw : String) (db db' : AuthDB) (now : Nat)
    (row : ResetTokenRow)
    (hfind : db.resetTokens.find?
      (fun r => r.token_hash == sha token && r.used_at == none) = some row)
    (hrun : handleResetPassword sha hashPw token newPw confirmPw db now = (db', .success)) :
    ∀ rt ∈ db'.refreshTokens, rt.user_id = row.user_id → rt.revoked_at ≠ none := by
  have hc : db.consumePasswordResetToken (sha token) now =
      ({ db with resetTokens := db.resetTokens.map (fun r =>
          if r.token_hash == sha token then { r with used_at := some now } else r) },
       some (row.user_id, row.expires_at)) := by
    unfold AuthDB.consumePasswordResetToken
    rw [hfind]
  by_cases h1 : token = ""
  · simp [handleResetPassword, h1, Prod.ext_iff] at hrun
  by_cases h2 : newPw.length < 8
  · simp [handleResetPassword, h1, h2, Prod.ext_iff] at hrun
  by_cases h3 : newPw ≠ confirmPw
  · simp [handleResetPassword, h1, h2, h3, Prod.ext_iff] at hrun
  by_cases h4 : row.expires_at ≤ now
  · simp [handleResetPassword, h1, h2, h3, h4, hc, Prod.ext_iff] at hrun
  · simp only [handleResetPassword, if_neg h1, if_neg h2, if_neg h3, hc,
      if_neg h4, Prod.mk.injEq] at hrun
    rw [← hrun.1]
    intro rt hrt huid
    obtain ⟨r, hr, hfr⟩ := List.mem_map.mp hrt
    subst hfr
    by_cases hcond : (r.user_id == row.user_id && r.revoked_at == none) = true
    · simp [hcond]
    · rw [if_neg hcond] at huid ⊢
      have hb : (r.revoked_at == none) = false := by
        cases hrev : r.revoked_at == none
        · rfl
        · exact absurd (by simp [huid, hrev]) hcond
      intro hnone
      rw [hnone] at hb
      simp at hb

/-- Witness for C9: in a concrete reset flow over one user, one reset token
and two refresh tokens, the previously live token `t1` ends up revoked. -/
theorem c9_reset_revokes_all_sessions_witness :
    (⟨"t1", "u1", "h1", "fam1", 100, some 10, none, none, none, 0⟩ :
      RefreshTokenRow).revoked_at ≠ none :=
  c9_reset_revokes_all_sessions (fun s => s) (fun s => s ++ "-hash")
    "tk" "newpass123" "newpass123"
    ⟨[⟨"u1", "bob@x.test", true, some "old-hash", "Bob", none, 0, 0⟩], [], [], [],
      [⟨"t1", "u1", "h1", "fam1", 100, none, none, none, none, 0⟩,
       ⟨"t2", "u1", "h2", "fam2", 100, some 3, none, none, none, 1⟩],
      [⟨"tk", "u1", 50, none, 0⟩]⟩
    (handleResetPassword (fun s => s) (fun s => s ++ "-hash")
      "tk" "newpass123" "newpass123"
      ⟨[⟨"u1", "bob@x.test", true, some "old-hash", "Bob", none, 0, 0⟩], [], [], [],
        [⟨"t1", "u1", "h1", "fam1", 100, none, none, none, none, 0⟩,
         ⟨"t2", "u1", "h2", "fam2", 100, some 3, none, none, none, 1⟩],
        [⟨"tk", "u1", 50, none, 0⟩]⟩ 10).1
    10 ⟨"tk", "u1", 50, none, 0⟩ (by decide) (by decide)
    ⟨"t1", "u1", "h1", "fam1", 100, some 10, none, none, none, 0⟩
    (by decide) (by decide)

/-! ## C4 — rotation leaves exactly one live row per family -/

/-- C4: a successful `rotateRefreshToken` call — on a store where the old
row is the family's only unrevoked member (the invariant every family
reaches: each family starts with one token and every mutation preserves it)
and every family row was created strictly before `now` — leaves exactly one
unrevoked row in the family, namely the inserted one with
`created_at = now`, strictly later than every revoked sibling. -/
theorem c4_rotation_single_live_row (db : AuthDB) (now : Nat) (oldHash : String)
    (nt : AuthDB.NewRefreshToken) (rf : RefreshTokenRow)
    (hfind : db.getRefreshTokenByHash oldHash = some rf)
    (hunrev : rf.revoked_at = none)
    (hfam : nt.family_id = rf.family_id)
    (honly : ∀ r ∈ db.refreshTokens, r.family_id = rf.family_id →
      r.revoked_at = none → r.token_hash = oldHash)
    (hcreated : ∀ r ∈ db.refreshTokens, r.family_id = rf.family_id →
      r.created_at < now) :
    (db.rotateRefreshToken now oldHash nt).2 = ⟨true, false⟩ ∧
    ((db.rotateRefreshToken now oldHash nt).1.refreshTokens.filter
        (fun r => r.family_id == rf.family_id && r.revoked_at == none)) =
      [nt.toRow now] ∧
    (nt.toRow now).created_at = now ∧
    (∀ r ∈ (db.rotateRefreshToken now oldHash nt).1.refreshTokens,
        r.family_id = rf.family_id → r.revoked_at ≠ none → r.created_at < now) := by
  have hres : db.rotateRefreshToken now oldHash nt =
      (({ db with refreshTokens := db.refreshTokens.map (fun r =>
          if r.token_hash == oldHash then
            { r with revoked_at := some now, last_used_at := some now }
          else r) } : AuthDB).insertRefreshToken now nt, ⟨true, false⟩) := by
    simp [AuthDB.rotateRefreshToken, hfind, hunrev]
  rw [hres]
  refine ⟨rfl, ?_, rfl, ?_⟩
  · have hnil : (db.refreshTokens.map (fun r =>
        if r.token_hash == oldHash then
          { r with revoked_at := some now, last_used_at := some now }
        else r)).filter
        (fun r => r.family_id == rf.family_id && r.revoked_at == none) = [] := by
      rw [List.filter_eq_nil_iff]
      intro x hx
      obtain ⟨r, hr, hfr⟩ := List.mem_map.mp hx
      subst hfr
      by_cases hh : (r.token_hash == oldHash) = true
      · simp [hh]
      · have hh' : r.token_hash ≠ oldHash := by simpa using hh
        simp only [hh, Bool.false_eq_true, if_neg]
        by_cases hfr2 : r.family_id = rf.family_id
        · have : r.revoked_at ≠ none := fun hnone => hh' (honly r hr hfr2 hnone)
          simp [this]
        · simp [hfr2]
    show ((db.refreshTokens.map _) ++ [nt.toRow now]).filter _ = [nt.toRow now]
    rw [List.filter_append, hnil]
    simp [AuthDB.NewRefreshToken.toRow, hfam]
  · intro r hr hfamr hrev
    have hr' : r ∈ (db.refreshTokens.map (fun r =>
        if r.token_hash == oldHash then
          { r with revoked_at := some now, last_used_at := some now }
        else r)) ++ [nt.toRow now] := hr
    rcases List.mem_append.mp hr' with hmap | hsingle
    · obtain ⟨r0, hr0, hfr0⟩ := List.mem_map.mp hmap
      have hca : r.created_at = r0.created_at := by
        subst hfr0
        by_cases hh : (r0.token_hash == oldHash) = true <;> simp [hh]
      have hfa : r0.family_id = rf.family_id := by
        subst hfr0
        by_cases hh : (r0.token_hash == oldHash) = true <;> simpa [hh] using hfamr
      rw [hca]
      exact hcreated r0 hr0 hfa
    · exfalso
      have : r = nt.toRow now := by simpa using hsingle
      rw [this] at hrev
      exact hrev rfl

/-- Witness for C4 at a one-token family. -/
theorem c4_rotation_single_live_row_witness :
    (AuthDB.rotateRefreshToken
        ⟨[], [], [], [],
          [⟨"t1", "u1", "h1", "fam", 100, none, none, none, none, 0⟩], []⟩
        5 "h1" ⟨"t2", "u1", "h2", "fam", 200, none, none⟩).2 = ⟨true, false⟩ ∧
    ((AuthDB.rotateRefreshToken
        ⟨[], [], [], [],
          [⟨"t1", "u1", "h1", "fam", 100, none, none, none, none, 0⟩], []⟩
        5 "h1" ⟨"t2", "u1", "h2", "fam", 200, none, none⟩).1.refreshTokens.filter
      (fun r => r.family_id == "fam" && r.revoked_at == none)) =
      [⟨"t2", "u1", "h2", "fam", 200, none, none, none, none, 5⟩] := by
  have h := c4_rotation_single_live_row
    ⟨[], [], [], [],
      [⟨"t1", "u1", "h1", "fam", 100, none, none, none, none, 0⟩], []⟩
    5 "h1" ⟨"t2", "u1", "h2", "fam", 200, none, none⟩
    ⟨"t1", "u1", "h1", "fam", 100, none, none, none, none, 0⟩
    (by decide) (by decide) (by decide) (by decide) (by decide)
  exact ⟨h.1, h.2.1⟩

/-! ## C2 — refresh-token reuse revokes the whole family -/

/-- C2: presenting a valid refresh token `R1` succeeds and rotates it
(conjuncts 1-2); presenting `R1` again finds the revoked row, revokes every
member of its family, and fails with `session_expired` (conjuncts 3-4); and
presenting the replacement `R2` issued by the first call afterwards also
fails, because the family-wide revocation covered it (conjunct 5). -/
theorem c2_reuse_revokes_family (sha : String → String)
    (inp1 inp2 inp3 : RefreshInput) (db0 : AuthDB) (now1 now2 now3 : Nat)
    (r1 : RefreshTokenRow) (R1 R2 : String)
    (h1url : inp1.redirectUrl ≠ "") (h1val : inp1.validation.valid = true)
    (h1ck : extractRefreshToken inp1.cookieHeader = some R1)
    (hfind1 : db0.getRefreshTokenByHash (sha R1) = some r1)
    (h1unrev : r1.revoked_at = none)
    (h1exp : now1 < r1.expires_at)
    (hR2 : inp1.newRefreshPlain = R2)
    (hh12 : sha R2 ≠ sha R1)
    (hfresh : ∀ r ∈ db0.refreshTokens, r.token_hash ≠ sha R2)
    (h2url : inp2.redirectUrl ≠ "") (h2val : inp2.validation.valid = true)
    (h2ck : extractRefreshToken inp2.cookieHeader = some R1)
    (h3url : inp3.redirectUrl ≠ "") (h3val : inp3.validation.valid = true)
    (h3ck : extractRefreshToken inp3.cookieHeader = some R2) :
    ((handleRefresh sha inp1 db0 now1).2 =
      ⟨302, none, false, some R2, some inp1.newAuthCodePlain⟩) ∧
    ((handleRefresh sha inp1 db0 now1).1.refreshTokens =
      db0.refreshTokens.map (fun r =>
        if r.token_hash == sha R1 then
          { r with revoked_at := some now1, last_used_at := some now1 }
        else r) ++
      [⟨inp1.newRefreshId, r1.user_id, sha R2, r1.family_id,
        now1 + inp1.refreshTtlDays * 24 * 60 * 60, none, none, inp1.ip, inp1.ua, now1⟩]) ∧
    ((handleRefresh sha inp2 (handleRefresh sha inp1 db0 now1).1 now2).2 =
      redirectToLogin "session_expired" true) ∧
    (∀ r ∈ (handleRefresh sha inp2
        (handleRefresh sha inp1 db0 now1).1 now2).1.refreshTokens,
      r.family_id = r1.family_id → r.revoked_at ≠ none) ∧
    ((handleRefresh sha inp3
        (handleRefresh sha inp2 (handleRefresh sha inp1 db0 now1).1 now2).1 now3).2 =
      redirectToLogin "session_expired" true) := by
  have hexp1 : ¬(r1.expires_at ≤ now1) := Nat.not_le.mpr h1exp
  have hfind1' : db0.refreshTokens.find? (fun r => r.token_hash == sha R1) = some r1 := hfind1
  have hp1 : (r1.token_hash == sha R1) = true := by
    have := List.find?_some hfind1'
    simpa using this
  -- step 1: evaluate the first call
  have e1 : handleRefresh sha inp1 db0 now1 =
      ({ db0 with
          refreshTokens := db0.refreshTokens.map (fun r =>
            if r.token_hash == sha R1 then
              { r with revoked_at := some now1, last_used_at := some now1 }
            else r) ++
            [⟨inp1.newRefreshId, r1.user_id, sha R2, r1.family_id,
              now1 + inp1.refreshTtlDays * 24 * 60 * 60, none, none,
              inp1.ip, inp1.ua, now1⟩],
          authCodes := db0.authCodes ++
            [⟨sha inp1.newAuthCodePlain, r1.user_id, inp1.validation.tenantId,
              inp1.validation.origin,
              resolveAudience inp1.redirectHostname inp1.audienceParam,
              now1 + inp1.codeTtlSeconds, now1, none, none⟩] },
       ⟨302, none, false, some R2, some inp1.newAuthCodePlain⟩) := by
    simp [handleRefresh, h1url, h1val, h1ck, hfind1, h1unrev, hexp1, hR2,
      AuthDB.rotateRefreshToken, AuthDB.insertRefreshToken, AuthDB.insertAuthCode,
      AuthDB.NewRefreshToken.toRow]
  -- the map and the appended row of the rotated state
  have hpres1 : ∀ r : RefreshTokenRow,
      (((if r.token_hash == sha R1 then
          { r with revoked_at := some now1, last_used_at := some now1 }
        else r) : RefreshTokenRow).token_hash == sha R1) =
      (r.token_hash == sha R1) := by
    intro r
    by_cases hc : (r.token_hash == sha R1) = true <;> simp [hc]
  have hpres2 : ∀ r : RefreshTokenRow,
      (((if r.token_hash == sha R1 then
          { r with revoked_at := some now1, last_used_at := some now1 }
        else r) : RefreshTokenRow).token_hash == sha R2) =
      (r.token_hash == sha R2) := by
    intro r
    by_cases hc : (r.token_hash == sha R1) = true <;> simp [hc]
  -- make the rotated state opaque so later simp calls cannot unfold it
  generalize hS : ({ db0 with
      refreshTokens := db0.refreshTokens.map (fun r =>
        if r.token_hash == sha R1 then
          { r with revoked_at := some now1, last_used_at := some now1 }
        else r) ++
        [⟨inp1.newRefreshId, r1.user_id, sha R2, r1.family_id,
          now1 + inp1.refreshTtlDays * 24 * 60 * 60, none, none,
          inp1.ip, inp1.ua, now1⟩],
      authCodes := db0.authCodes ++
        [⟨sha inp1.newAuthCodePlain, r1.user_id, inp1.validation.tenantId,
          inp1.validation.origin,
          resolveAudience inp1.redirectHostname inp1.audienceParam,
          now1 + inp1.codeTtlSeconds, now1, none, none⟩] } : AuthDB) = S1 at e1
  have hS1rt : S1.refreshTokens =
      db0.refreshTokens.map (fun r =>
        if r.token_hash == sha R1 then
          { r with revoked_at := some now1, last_used_at := some now1 }
        else r) ++
        [⟨inp1.newRefreshId, r1.user_id, sha R2, r1.family_id,
          now1 + inp1.refreshTtlDays * 24 * 60 * 60, none, none,
          inp1.ip, inp1.ua, now1⟩] := by
    rw [← hS]
  -- step 2: the revoked row is found again
  have hfind2 : AuthDB.getRefreshTokenByHash S1 (sha R1) =
      some { r1 with revoked_at := some now1, last_used_at := some now1 } := by
    have h0 : AuthDB.getRefreshTokenByHash S1 (sha R1) =
        (S1.refreshTokens).find? (fun r => r.token_hash == sha R1) := rfl
    rw [h0, hS1rt, List.find?_append, find?_map_pres _ _ hpres1, hfind1']
    simp only [Option.map_some', Option.or, if_pos hp1]
  have e2 : handleRefresh sha inp2 S1 now2 =
      (AuthDB.revokeRefreshTokenFamily S1 r1.family_id now2,
       redirectToLogin "session_expired" true) := by
    simp [handleRefresh, h2url, h2val, h2ck, hfind2]
  have e2rt : (AuthDB.revokeRefreshTokenFamily S1 r1.family_id now2).refreshTokens =
      (S1.refreshTokens).map (fun r =>
        if r.family_id == r1.family_id && r.revoked_at == none then
          { r with revoked_at := some now2 }
        else r) := rfl
  -- step 3: the replacement token's row is found revoked
  have hfind3 : AuthDB.getRefreshTokenByHash
      (AuthDB.revokeRefreshTokenFamily S1 r1.family_id now2) (sha R2) =
      some ⟨inp1.newRefreshId, r1.user_id, sha R2, r1.family_id,
        now1 + inp1.refreshTtlDays * 24 * 60 * 60, some now2, none,
        inp1.ip, inp1.ua, now1⟩ := by
    have h0 : AuthDB.getRefreshTokenByHash
        (AuthDB.revokeRefreshTokenFamily S1 r1.family_id now2) (sha R2) =
        ((AuthDB.revokeRefreshTokenFamily S1 r1.family_id now2).refreshTokens).find?
          (fun r => r.token_hash == sha R2) := rfl
    rw [h0, e2rt, hS1rt, List.map_append, List.find?_append]
    have hnone2 : ((db0.refreshTokens.map (fun r =>
        if r.token_hash == sha R1 then
          { r with revoked_at := some now1, last_used_at := some now1 }
        else r)).map (fun r =>
          if r.family_id == r1.family_id && r.revoked_at == none then
            { r with revoked_at := some now2 }
          else r)).find? (fun r => r.token_hash == sha R2) = none := by
      rw [find?_map_pres _ _ (by
        intro r
        by_cases hc : (r.family_id == r1.family_id && r.revoked_at == none) = true <;>
          simp [hc])]
      rw [find?_map_pres _ _ hpres2]
      rw [List.find?_eq_none.mpr (fun r hr => by simpa using hfresh r hr)]
      rfl
    rw [hnone2]
    simp [Option.or, List.find?]
  have e3 : (handleRefresh sha inp3
      (AuthDB.revokeRefreshTokenFamily S1 r1.family_id now2) now3).2 =
      redirectToLogin "session_expired" true := by
    simp [handleRefresh, h3url, h3val, h3ck, hfind3]
  refine ⟨by rw [e1], by simp only [e1]; exact hS1rt, by simp only [e1]; rw [e2], ?_,
    by simp only [e1, e2]; exact e3⟩
  -- every family member is revoked after the second call
  intro r hr hfam hrev
  simp only [e1, e2] at hr
  rw [e2rt] at hr
  obtain ⟨r0, hr0, hfr0⟩ := List.mem_map.mp hr
  by_cases hcond : (r0.family_id == r1.family_id && r0.revoked_at == none) = true
  · rw [if_pos hcond] at hfr0
    rw [← hfr0] at hrev
    simp at hrev
  · rw [if_neg hcond] at hfr0
    subst hfr0
    have hb : (r0.revoked_at == none) = false := by
      cases hrevb : r0.revoked_at == none
      · rfl
      · exact absurd (by simp [hfam, hrevb]) hcond
    rw [hrev] at hb
    simp at hb

/-- Witness for C2 at a concrete store: one live token `r1`; presenting it,
presenting it again, then presenting the replacement `r2` ends in the
session-expired redirect. -/
theorem c2_reuse_revokes_family_witness :
    (handleRefresh (fun s => s)
      ⟨"t", "https://shop.example/", ⟨true, "https://shop.example", "tid", none⟩, "",
        none, some "cp_refresh=r2", none, none, "n3", "r4", "ac3", 30, 120⟩
      ((handleRefresh (fun s => s)
        ⟨"t", "https://shop.example/", ⟨true, "https://shop.example", "tid", none⟩, "",
          none, some "cp_refresh=r1", none, none, "n2", "r3", "ac2", 30, 120⟩
        ((handleRefresh (fun s => s)
          ⟨"t", "https://shop.example/", ⟨true, "https://shop.example", "tid", none⟩, "",
            none, some "cp_refresh=r1", none, none, "n1", "r2", "ac1", 30, 120⟩
          ⟨[], [], [], [], [⟨"t1", "u1", "r1", "fam", 100, none, none, none, none, 0⟩], []⟩
          1).1) 2).1) 3).2 =
    redirectToLogin "session_expired" true :=
  (c2_reuse_revokes_family (fun s => s)
    ⟨"t", "https://shop.example/", ⟨true, "https://shop.example", "tid", none⟩, "",
      none, some "cp_refresh=r1", none, none, "n1", "r2", "ac1", 30, 120⟩
    ⟨"t", "https://shop.example/", ⟨true, "https://shop.example", "tid", none⟩, "",
      none, some "cp_refresh=r1", none, none, "n2", "r3", "ac2", 30, 120⟩
    ⟨"t", "https://shop.example/", ⟨true, "https://shop.example", "tid", none⟩, "",
      none, some "cp_refresh=r2", none, none, "n3", "r4", "ac3", 30, 120⟩
    ⟨[], [], [], [], [⟨"t1", "u1", "r1", "fam", 100, none, none, none, none, 0⟩], []⟩
    1 2 3 ⟨"t1", "u1", "r1", "fam", 100, none, none, none, none, 0⟩ "r1" "r2"
    (by decide) (by decide) (by decide) (by decide) (by decide) (by decide)
    (by decide) (by decide) (by decide) (by decide) (by decide) (by decide)
    (by decide) (by decide) (by decide)).2.2.2.2

/-- C6 (amended): every `GET /api/refresh` rejection for a missing-row,
revoked, or expired token 302-redirects to the login page with
`error=session_expired` and clears the `cp_refresh` cookie; the
missing-cookie rejection also 302-redirects with `error=session_expired`
but does **not** clear the cookie (the source omits `clearCookie` there). -/
theorem c6_refresh_rejections (sha : String → String) (inp : RefreshInput)
    (db : AuthDB) (now : Nat)
    (hurl : inp.redirectUrl ≠ "") (hval : inp.validation.valid = true) :
    (extractRefreshToken inp.cookieHeader = none →
      handleRefresh sha inp db now = (db, redirectToLogin "session_expired" false)) ∧
    (∀ tok, extractRefreshToken inp.cookieHeader = some tok →
      (db.getRefreshTokenByHash (sha tok) = none →
        handleRefresh sha inp db now = (db, redirectToLogin "session_expired" true)) ∧
      (∀ ex, db.getRefreshTokenByHash (sha tok) = some ex →
        (ex.revoked_at ≠ none →
          handleRefresh sha inp db now =
            (db.revokeRefreshTokenFamily ex.family_id now,
             redirectToLogin "session_expired" true)) ∧
        (ex.revoked_at = none → ex.expires_at ≤ now →
          handleRefresh sha inp db now = (db, redirectToLogin "session_expired" true)))) := by
  refine ⟨fun hE => ?_, fun tok hE => ⟨fun hF => ?_, fun ex hF => ⟨fun hrev => ?_, fun hrev hexp => ?_⟩⟩⟩
  · simp [handleRefresh, hurl, hval, hE]
  · simp [handleRefresh, hurl, hval, hE, hF]
  · simp [handleRefresh, hurl, hval, hE, hF, hrev]
  · simp [handleRefresh, hurl, hval, hE, hF, hrev, hexp]

/-- Witness for C6's amended theorem: the token-not-found rejection at a
concrete request (cookie present, empty store) clears the cookie. -/
theorem c6_refresh_rejections_witness :
    handleRefresh (fun s => s)
      ⟨"", "https://shop.centerpiece.shop/cart",
        ⟨true, "https://shop.centerpiece.shop", "__unknown__", none⟩,
        "", some "shop.centerpiece.shop", some "cp_refresh=r1", none, none,
        "rid", "rtok", "codetok", 30, 60⟩
      ⟨[], [], [], [], [], []⟩ 0 =
      (⟨[], [], [], [], [], []⟩, redirectToLogin "session_expired" true) :=
  ((c6_refresh_rejections (fun s => s)
      ⟨"", "https://shop.centerpiece.shop/cart",
        ⟨true, "https://shop.centerpiece.shop", "__unknown__", none⟩,
        "", some "shop.centerpiece.shop", some "cp_refresh=r1", none, none,
        "rid", "rtok", "codetok", 30, 60⟩
      ⟨[], [], [], [], [], []⟩ 0
      (by decide) (by decide)).2 "r1" (by decide)).1 (by decide)

/-! ## C3 — authorization codes are consumed before validation -/

/-- C3: for a `POST /api/token` exchange with non-empty fields, (i) after the
call no `auth_codes` row with the presented code's hash remains, whatever
the outcome; (ii) any retry of the same code — with arbitrary, even
all-correct, parameters — is rejected HTTP 400 with the generic message;
(iii) a successful exchange implies the caller's `tenant_id` and
`redirect_origin` are exactly the stored values, the code is unexpired, and
when a (non-empty) `code_challenge` is stored the caller supplied a
verifier whose S256 transform equals it. -/
theorem c3_code_consumed_and_bound (sha s256 : String → String) (aD : String)
    (ttl : Nat) (jti : String) (req : TokenRequest) (db : AuthDB) (now : Nat)
    (hc : req.code ≠ "") (ht : req.tenant_id ≠ "") (hro : req.redirect_origin ≠ "") :
    (∀ r ∈ (handleTokenExchange sha s256 aD ttl jti req db now).1.authCodes,
        r.code_hash ≠ sha req.code) ∧
    (∀ (req2 : TokenRequest) (jti2 : String) (ttl2 now2 : Nat),
        req2.code ≠ "" → req2.tenant_id ≠ "" → req2.redirect_origin ≠ "" →
        sha req2.code = sha req.code →
        (handleTokenExchange sha s256 aD ttl2 jti2 req2
            (handleTokenExchange sha s256 aD ttl jti req db now).1 now2).2 =
          .err 400 "Invalid or expired authorization code") ∧
    (∀ payload ttlOut,
        (handleTokenExchange sha s256 aD ttl jti req db now).2 = .ok payload ttlOut →
        ∃ row, db.authCodes.find? (fun r => r.code_hash == sha req.code) = some row ∧
          req.tenant_id = row.tenant_id ∧ req.redirect_origin = row.redirect_origin ∧
          now < row.expires_at ∧
          (∀ c, row.code_challenge = some c → c ≠ "" →
            ∃ v, req.code_verifier = some v ∧ v ≠ "" ∧ s256 v = c)) := by
  have hfields : ¬(req.code = "" ∨ req.tenant_id = "" ∨ req.redirect_origin = "") := by
    push_neg
    exact ⟨hc, ht, hro⟩
  have habs : ∀ r ∈ (handleTokenExchange sha s256 aD ttl jti req db now).1.authCodes,
      r.code_hash ≠ sha req.code := by
    cases hfind : db.authCodes.find? (fun r => r.code_hash == sha req.code) with
    | none =>
      have hrw : (handleTokenExchange sha s256 aD ttl jti req db now).1.authCodes =
          db.authCodes := by
        simp only [handleTokenExchange, if_neg hfields, AuthDB.consumeAuthCode, hfind]
      intro r hrr
      rw [hrw] at hrr
      have := List.find?_eq_none.mp hfind r hrr
      simpa using this
    | some row =>
      have hrw : (handleTokenExchange sha s256 aD ttl jti req db now).1.authCodes =
          db.authCodes.filter (fun x => !(x.code_hash == sha req.code)) := by
        simp only [handleTokenExchange, if_neg hfields, AuthDB.consumeAuthCode, hfind]
        split_ifs <;> first | rfl | (split <;> rfl)
      intro r hrr
      rw [hrw] at hrr
      have h2 := List.of_mem_filter hrr
      simpa using h2
  refine ⟨habs, ?_, ?_⟩
  · intro req2 jti2 ttl2 now2 hc2 ht2 hr2 hsha
    have hfields2 : ¬(req2.code = "" ∨ req2.tenant_id = "" ∨ req2.redirect_origin = "") := by
      push_neg
      exact ⟨hc2, ht2, hr2⟩
    have hnone : (handleTokenExchange sha s256 aD ttl jti req db now).1.authCodes.find?
        (fun r => r.code_hash == sha req2.code) = none := by
      rw [hsha]
      exact List.find?_eq_none.mpr (fun r hrr => by simpa using habs r hrr)
    generalize hdb' : (handleTokenExchange sha s256 aD ttl jti req db now).1 = db' at hnone
    unfold handleTokenExchange AuthDB.consumeAuthCode
    rw [if_neg hfields2, hnone]
  · intro payload ttlOut hok
    cases hfind : db.authCodes.find? (fun r => r.code_hash == sha req.code) with
    | none =>
      simp only [handleTokenExchange, if_neg hfields, AuthDB.consumeAuthCode, hfind] at hok
      exact absurd hok (by simp)
    | some row =>
      simp only [handleTokenExchange, if_neg hfields, AuthDB.consumeAuthCode, hfind] at hok
      refine ⟨row, rfl, ?_⟩
      by_cases hexp : row.expires_at ≤ now
      · rw [if_pos hexp] at hok
        exact absurd hok (by simp)
      rw [if_neg hexp] at hok
      by_cases htid : row.tenant_id ≠ req.tenant_id
      · rw [if_pos htid] at hok
        exact absurd hok (by simp)
      rw [if_neg htid] at hok
      by_cases horig : row.redirect_origin ≠ req.redirect_origin
      · rw [if_pos horig] at hok
        exact absurd hok (by simp)
      rw [if_neg horig] at hok
      by_cases hpk1 : row.code_challenge.getD "" ≠ "" ∧ req.code_verifier.getD "" = ""
      · rw [if_pos hpk1] at hok
        exact absurd hok (by simp)
      rw [if_neg hpk1] at hok
      by_cases hpk2 : row.code_challenge.getD "" ≠ "" ∧
          s256 (req.code_verifier.getD "") ≠ row.code_challenge.getD ""
      · rw [if_pos hpk2] at hok
        exact absurd hok (by simp)
      push_neg at htid horig hpk1 hpk2
      refine ⟨htid.symm, horig.symm, Nat.lt_of_not_le hexp, ?_⟩
      intro c hcc hcne
      have hcd : row.code_challenge.getD "" = c := by rw [hcc]; rfl
      have hcne' : row.code_challenge.getD "" ≠ "" := by rw [hcd]; exact hcne
      have hvne : req.code_verifier.getD "" ≠ "" := hpk1 hcne'
      obtain ⟨v, hv⟩ : ∃ v, req.code_verifier = some v := by
        cases hcv : req.code_verifier with
        | none => exact absurd (by rw [hcv]; rfl) hvne
        | some v => exact ⟨v, rfl⟩
      have hvd : req.code_verifier.getD "" = v := by rw [hv]; rfl
      refine ⟨v, hv, by rw [← hvd]; exact hvne, ?_⟩
      have hs := hpk2 hcne'
      rw [hvd, hcd] at hs
      exact hs

/-- Witness for C3: a consumed code replayed with identical, all-correct
parameters is rejected 400 with the generic message. -/
theorem c3_code_consumed_and_bound_witness :
    (handleTokenExchange (fun s => s) (fun s => s) "https://auth.example" 900 "J2"
      ⟨"c1", "__unknown__", "https://a.centerpiece.shop", none⟩
      (handleTokenExchange (fun s => s) (fun s => s) "https://auth.example" 900 "J1"
        ⟨"c1", "__unknown__", "https://a.centerpiece.shop", none⟩
        ⟨[⟨"u1", "a@b.c", true, some "ph", "A", none, 0, 0⟩], [], [],
          [⟨"c1", "u1", "__unknown__", "https://a.centerpiece.shop",
            Aud.storefront, 100, 0, none, none⟩], [], []⟩ 5).1 6).2 =
      .err 400 "Invalid or expired authorization code" :=
  (c3_code_consumed_and_bound (fun s => s) (fun s => s) "https://auth.example" 900 "J1"
    ⟨"c1", "__unknown__", "https://a.centerpiece.shop", none⟩
    ⟨[⟨"u1", "a@b.c", true, some "ph", "A", none, 0, 0⟩], [], [],
      [⟨"c1", "u1", "__unknown__", "https://a.centerpiece.shop",
        Aud.storefront, 100, 0, none, none⟩], [], []⟩ 5
    (by decide) (by decide) (by decide)).2.1
    ⟨"c1", "__unknown__", "https://a.centerpiece.shop", none⟩ "J2" 900 6
    (by decide) (by decide) (by decide) rfl

/-! ## C5 — audience-dependent claim sets -/

theorem buildAccessPayload_spec (dbA dbB : AuthDB) (user : UserRow) (aud : Aud)
    (jti aD : String) (hmem : dbB.memberships = dbA.memberships) :
    ((buildAccessPayload dbB user aud jti aD).aud = Aud.storefront →
      (buildAccessPayload dbB user aud jti aD).jti = none ∧
      (buildAccessPayload dbB user aud jti aD).roles = none ∧
      (buildAccessPayload dbB user aud jti aD).primaryTenantId = none) ∧
    ((buildAccessPayload dbB user aud jti aD).aud = Aud.admin →
      (buildAccessPayload dbB user aud jti aD).jti = some jti ∧
      ((AuthDB.activeNonCustomer dbA ((buildAccessPayload dbB user aud jti aD).sub) = [] →
          (buildAccessPayload dbB user aud jti aD).primaryTenantId = some none ∧
          (buildAccessPayload dbB user aud jti aD).roles = some ([])) ∧
       (AuthDB.activeNonCustomer dbA ((buildAccessPayload dbB user aud jti aD).sub) ≠ [] →
          ∃ m0 ∈ AuthDB.activeNonCustomer dbA ((buildAccessPayload dbB user aud jti aD).sub),
            (buildAccessPayload dbB user aud jti aD).primaryTenantId =
              some (some m0.tenant_id) ∧
            (∀ m' ∈ AuthDB.activeNonCustomer dbA ((buildAccessPayload dbB user aud jti aD).sub),
              m0.created_at ≤ m'.created_at) ∧
            ∃ rl, (buildAccessPayload dbB user aud jti aD).roles = some rl ∧
              List.Perm rl
                (((AuthDB.activeNonCustomer dbA ((buildAccessPayload dbB user aud jti aD).sub)).filter
                  (fun m => m.tenant_id == m0.tenant_id)).map (·.role))))) := by
  have hAB : AuthDB.activeNonCustomer dbB user.id = AuthDB.activeNonCustomer dbA user.id := by
    unfold AuthDB.activeNonCustomer
    rw [hmem]
  by_cases haud : aud = Aud.admin
  · cases hl : AuthDB.getAdminMemberships dbB user.id with
    | nil =>
      have hbp : buildAccessPayload dbB user aud jti aD =
          { sub := user.id, email := user.email, name := user.name,
            aud := aud, iss := aD, jti := some jti, roles := some ([]),
            primaryTenantId := some none } := by
        unfold buildAccessPayload
        rw [if_pos haud, hl]
        rfl
      rw [hbp]
      have hA : AuthDB.activeNonCustomer dbA user.id = [] := by
        have hperm := List.perm_insertionSort AuthDB.leCreated (AuthDB.activeNonCustomer dbB user.id)
        rw [show List.insertionSort AuthDB.leCreated (AuthDB.activeNonCustomer dbB user.id) =
          AuthDB.getAdminMemberships dbB user.id from rfl, hl] at hperm
        rw [← hAB]
        exact (List.Perm.eq_nil hperm.symm)
      constructor
      · intro hsf
        rw [haud] at hsf
        simp at hsf
      · intro _
        exact ⟨rfl, fun _ => ⟨rfl, rfl⟩, fun hne => absurd hA hne⟩
    | cons m0 tl =>
      have hbp : buildAccessPayload dbB user aud jti aD =
          { sub := user.id, email := user.email, name := user.name,
            aud := aud, iss := aD, jti := some jti,
            roles := some (((m0 :: tl).filter
              (fun m => m.tenant_id == m0.tenant_id)).map (·.role)),
            primaryTenantId := some (some m0.tenant_id) } := by
        unfold buildAccessPayload
        rw [if_pos haud, hl]
        rfl
      have hmin := insertionSort_head_min (AuthDB.activeNonCustomer dbB user.id) m0 tl hl
      rw [hbp]
      constructor
      · intro hsf
        rw [haud] at hsf
        simp at hsf
      · intro _
        refine ⟨rfl, fun hA => ?_, fun _ => ?_⟩
        · rw [← hAB] at hA
          rw [hA] at hmin
          exact absurd hmin.1 (by simp)
        · refine ⟨m0, hAB ▸ hmin.1, rfl, fun m' hm' => hmin.2 m' (hAB ▸ hm'), ?_⟩
          refine ⟨_, rfl, ?_⟩
          have hperm := List.perm_insertionSort AuthDB.leCreated (AuthDB.activeNonCustomer dbB user.id)
          have hperm2 : List.Perm (m0 :: tl) (AuthDB.activeNonCustomer dbA user.id) := by
            rw [show List.insertionSort AuthDB.leCreated (AuthDB.activeNonCustomer dbB user.id) =
              AuthDB.getAdminMemberships dbB user.id from rfl, hl, hAB] at hperm
            exact hperm
          exact (hperm2.filter (fun m => m.tenant_id == m0.tenant_id)).map (·.role)
  · have hbp : buildAccessPayload dbB user aud jti aD =
        { sub := user.id, email := user.email, name := user.name,
          aud := aud, iss := aD, jti := none, roles := none,
          primaryTenantId := none } := by
      unfold buildAccessPayload
      rw [if_neg haud]
    rw [hbp]
    exact ⟨fun _ => ⟨rfl, rfl, rfl⟩, fun hadm => absurd hadm haud⟩

/-- C5: an access token the exchange endpoint issues with
`aud = "storefront"` carries none of `jti`, `roles`, `primaryTenantId`; one
issued with `aud = "admin"` carries all three, where `jti` is the freshly
drawn id, `primaryTenantId` is the tenant of the oldest active non-customer
membership of the subject (the payload's inner `null` when there is none),
and `roles` is exactly (up to order) the set of active non-customer roles
held at that tenant — the empty array when there is no such membership. -/
theorem c5_audience_claim_sets (sha s256 : String → String) (aD : String)
    (ttl : Nat) (jti : String) (req : TokenRequest) (db : AuthDB) (now : Nat)
    (payload : JwtPayloadM) (ttlOut : Nat)
    (hok : (handleTokenExchange sha s256 aD ttl jti req db now).2 = .ok payload ttlOut) :
    (payload.aud = Aud.storefront →
      payload.jti = none ∧ payload.roles = none ∧ payload.primaryTenantId = none) ∧
    (payload.aud = Aud.admin →
      payload.jti = some jti ∧
      ((AuthDB.activeNonCustomer db payload.sub = [] →
          payload.primaryTenantId = some none ∧ payload.roles = some ([])) ∧
       (AuthDB.activeNonCustomer db payload.sub ≠ [] →
          ∃ m0 ∈ AuthDB.activeNonCustomer db payload.sub,
            payload.primaryTenantId = some (some m0.tenant_id) ∧
            (∀ m' ∈ AuthDB.activeNonCustomer db payload.sub, m0.created_at ≤ m'.created_at) ∧
            ∃ rl, payload.roles = some rl ∧
              List.Perm rl
                (((AuthDB.activeNonCustomer db payload.sub).filter
                  (fun m => m.tenant_id == m0.tenant_id)).map (·.role))))) := by
  by_cases hm : req.code = "" ∨ req.tenant_id = "" ∨ req.redirect_origin = ""
  · simp only [handleTokenExchange, if_pos hm] at hok
    exact absurd hok (by simp)
  cases hfind : db.authCodes.find? (fun r => r.code_hash == sha req.code) with
  | none =>
    simp only [handleTokenExchange, if_neg hm, AuthDB.consumeAuthCode, hfind] at hok
    exact absurd hok (by simp)
  | some row =>
    simp only [handleTokenExchange, if_neg hm, AuthDB.consumeAuthCode, hfind] at hok
    by_cases hexp : row.expires_at ≤ now
    · rw [if_pos hexp] at hok
      exact absurd hok (by simp)
    rw [if_neg hexp] at hok
    by_cases htid : row.tenant_id ≠ req.tenant_id
    · rw [if_pos htid] at hok
      exact absurd hok (by simp)
    rw [if_neg htid] at hok
    by_cases horig : row.redirect_origin ≠ req.redirect_origin
    · rw [if_pos horig] at hok
      exact absurd hok (by simp)
    rw [if_neg horig] at hok
    by_cases hpk1 : row.code_challenge.getD "" ≠ "" ∧ req.code_verifier.getD "" = ""
    · rw [if_pos hpk1] at hok
      exact absurd hok (by simp)
    rw [if_neg hpk1] at hok
    by_cases hpk2 : row.code_challenge.getD "" ≠ "" ∧
        s256 (req.code_verifier.getD "") ≠ row.code_challenge.getD ""
    · rw [if_pos hpk2] at hok
      exact absurd hok (by simp)
    rw [if_neg hpk2] at hok
    cases hu : ({ db with authCodes := db.authCodes.filter (fun r => !(r.code_hash == sha req.code)) } : AuthDB).getUserById row.user_id with
    | none =>
      simp only [hu] at hok
      exact absurd hok (by simp)
    | some user =>
      simp only [hu] at hok
      replace hok : TokenResult.ok (buildAccessPayload { db with authCodes := db.authCodes.filter (fun r => !(r.code_hash == sha req.code)) } user row.aud jti aD) ttl = TokenResult.ok payload ttlOut := hok
      injection hok with hp htt
      rw [← hp]
      exact buildAccessPayload_spec db _ user row.aud jti aD rfl

/-- Witness for C5: a concrete admin-audience exchange for a user with no
non-customer membership yields `jti`, empty `roles` and null
`primaryTenantId`. -/
theorem c5_audience_claim_sets_witness :
    ({ sub := "u1", email := "a@b.c", name := "A", aud := Aud.admin,
       iss := "https://auth.example", jti := some "J", roles := some ([]),
       primaryTenantId := some none } : JwtPayloadM).jti = some "J" ∧
    ({ sub := "u1", email := "a@b.c", name := "A", aud := Aud.admin,
       iss := "https://auth.example", jti := some "J", roles := some ([]),
       primaryTenantId := some none } : JwtPayloadM).primaryTenantId = some none ∧
    ({ sub := "u1", email := "a@b.c", name := "A", aud := Aud.admin,
       iss := "https://auth.example", jti := some "J", roles := some ([]),
       primaryTenantId := some none } : JwtPayloadM).roles = some ([]) := by
  have h := (c5_audience_claim_sets (fun s => s) (fun s => s) "https://auth.example" 900 "J"
    ⟨"cA", "t1", "https://admin.example", none⟩
    ⟨[⟨"u1", "a@b.c", true, some "ph", "A", none, 0, 0⟩], [], [],
      [⟨"cA", "u1", "t1", "https://admin.example", Aud.admin, 100, 0, none, none⟩],
      [], []⟩ 5
    { sub := "u1", email := "a@b.c", name := "A", aud := Aud.admin,
      iss := "https://auth.example", jti := some "J", roles := some ([]),
      primaryTenantId := some none } 900 (by decide)).2 rfl
  exact ⟨h.1, (h.2.1 rfl).1, (h.2.1 rfl).2⟩

/-- Counterexample to C6 as stated: a request carrying no `cp_refresh`
cookie is rejected with a 302 to `/login?error=session_expired`, but the
response carries **no** cookie-clearing `Set-Cookie` header
(`clearCookie = false`), while the claim requires the cookie to be cleared
on every rejection. -/
theorem c6_missing_cookie_counterexample :
    (handleRefresh (fun s => s)
      ⟨"", "https://shop.centerpiece.shop/cart",
        ⟨true, "https://shop.centerpiece.shop", "__unknown__", none⟩,
        "", some "shop.centerpiece.shop", none, none, none,
        "rid", "rtok", "codetok", 30, 60⟩
      ⟨[], [], [], [], [], []⟩ 0).2 =
      ⟨302, some "session_expired", false, none, none⟩ := by
  rfl

end CenterpieceAuth
